/-
Verification of the Chord node implementation in src/src/chord_impl.c.

The file embeds the five functions of chord_impl.c (stabilize,
fix_successor_list, fix_fingers, find_successor, closest_preceding_node)
and the helper wait_for_response as pure Lean functions over an explicit
state record.  Network effects are made explicit: every embedded function
that sends datagrams also returns the list of messages it sent, and every
function that awaits a response takes that response as a parameter (the
value that wait_for_response produced for it).  Machine integers are
modelled as Nat with explicit reduction modulo 2 ^ 64 where the C code
relies on uint64_t wrap-around.  A C control path that reaches the end of
a value-returning function without executing a return statement is
modelled as the value none of an Option type.
-/
import Mathlib

namespace Chord

/-- Ring size exponent, from include/chord.h: static const int M = 64. -/
def M : Nat := 64

/-- A Chord node descriptor: the protobuf Node message carries a 64-bit
key, an IPv4 address and a port.  Only the key drives routing decisions
in chord_impl.c. -/
structure Node where
  key : Nat
  address : Nat
  port : Nat
deriving DecidableEq, Repr

/-- The all-zero Node value, used as the out-of-range default when the
embedded finger table is read (the C finger_table always has M entries;
reads inside the modelled range never see this default). -/
def nullNode : Node := ⟨0, 0, 0⟩

/-- The message-case tags of the protobuf union ChordMessage, as used by
chord_impl.c (the CHORD_MESSAGE__MSG_ prefix of the C enumerators is
dropped). -/
inductive MsgCase where
  | NOT_SET
  | NOTIFY
  | GET_PREDECESSOR_REQUEST
  | GET_PREDECESSOR_RESPONSE
  | GET_SUCCESSOR_LIST_REQUEST
  | GET_SUCCESSOR_LIST_RESPONSE
  | START_FIND_SUCCESSOR_REQUEST
  | START_FIND_SUCCESSOR_RESPONSE
  | CHECK_PREDECESSOR_REQUEST
  | CHECK_PREDECESSOR_RESPONSE
deriving DecidableEq, Repr

/-- The MessageResponse record of include/chord.h.  The C field
n_successors is represented by the length of the successors list (the C
code only ever reads successors[0 .. n_successors - 1]). -/
structure MessageResponse where
  type : MsgCase
  node : Node
  successors : List Node
deriving DecidableEq, Repr

/-- A datagram sent by the embedded code: the destination node together
with the message tag (and payload where the code sets one).  This records
what send_to_node was called with. -/
inductive SentMsg where
  | getPredecessorRequest (dest : Node)
  | getSuccessorListRequest (dest : Node)
  | startFindSuccessorRequest (dest : Node) (key : Nat)
  | notifyMsg (dest : Node) (sender : Node)
deriving DecidableEq, Repr

/-- The mutable globals of chord_impl.h that the embedded functions read
and write: hash, self, predecessor, successor, finger_table,
successor_list and fixIndex. -/
structure ChordState where
  hash : Nat
  self : Node
  predecessor : Node
  successor : Node
  finger_table : List Node
  successor_list : List Node
  fixIndex : Nat
deriving DecidableEq, Repr

/-- Modelled from the spec: element_of is declared in include/chord.h and
called throughout chord_impl.c but its body is not under src.  Section
4.1 of the spec defines it as in_ring(x, a, b, incl): x lies on the
clockwise arc from a to b, excluding a, including b iff incl; when a = b
the arc is the whole ring minus the point a when incl holds, and the
degenerate case a = b with incl false is false.  Distances are taken
modulo 2 ^ 64. -/
def element_of (curr_var r1 r2 : Nat) (is_inclusive : Bool) : Bool :=
  let a := r1 % 2 ^ 64
  let b := r2 % 2 ^ 64
  let x := curr_var % 2 ^ 64
  if a = b then
    is_inclusive && (x != a)
  else
    let dx := (x + (2 ^ 64 - a)) % 2 ^ 64
    let db := (b + (2 ^ 64 - a)) % 2 ^ 64
    (dx != 0) && (decide (dx < db) || ((dx == db) && is_inclusive))

/-- Read of finger_table[i] in the embedding. -/
def fingerAt (s : ChordState) (i : Nat) : Node :=
  s.finger_table.getD i nullNode

/-- The loop condition of closest_preceding_node at index i:
finger_table[i].key != 0 && element_of(finger_table[i].key, hash, id, 0). -/
def goodFinger (s : ChordState) (id : Nat) (i : Nat) : Bool :=
  (fingerAt s i).key != 0 && element_of (fingerAt s i).key s.hash id false

/-- The descending scan of closest_preceding_node: cpn_from s id n checks
indices n-1, n-2, ..., 0 in that order and returns the first finger whose
loop condition holds, or self when none does. -/
def cpn_from (s : ChordState) (id : Nat) : Nat → Node
  | 0 => s.self
  | i + 1 => if goodFinger s id i then fingerAt s i else cpn_from s id i

/-- closest_preceding_node from chord_impl.c lines 275-285: scan the
finger table from index M-1 down to 0, return the first finger with a
nonzero key whose key lies in the open arc (hash, id); return self if
none matches. -/
def closest_preceding_node (s : ChordState) (id : Nat) : Node :=
  cpn_from s id M

/-- find_successor from chord_impl.c lines 241-273.  The parameter resp
is the value wait_for_response returned for the forwarded request (it is
not consulted when the first branch returns locally).  The first
component is some node when a return statement executes and none when
control falls off the end of the C function (the branch that prints
Wrong Message Type and returns no value); the second component lists the
datagrams sent. -/
def find_successor (s : ChordState) (id : Nat) (resp : MessageResponse) :
    Option Node × List SentMsg :=
  if element_of id s.hash s.successor.key true then
    (some s.successor, [])
  else
    let n_bar := closest_preceding_node s id
    let sent := [SentMsg.startFindSuccessorRequest n_bar id]
    if resp.type = MsgCase.START_FIND_SUCCESSOR_RESPONSE then
      (some resp.node, sent)
    else
      (none, sent)

/-- fix_successor_list from chord_impl.c lines 194-227.  The parameter
resp is the value wait_for_response returned.  On a matching response the
code frees the old list and builds a fresh one of length n_successors + 1
whose head is the current successor and whose tail copies every entry of
the response; on any other response the state is untouched.  In both
cases one GET_SUCCESSOR_LIST_REQUEST datagram was sent to the successor
first. -/
def fix_successor_list (s : ChordState) (resp : MessageResponse) :
    ChordState × List SentMsg :=
  let sent := [SentMsg.getSuccessorListRequest s.successor]
  if resp.type = MsgCase.GET_SUCCESSOR_LIST_RESPONSE then
    ({ s with successor_list := s.successor :: resp.successors }, sent)
  else
    (s, sent)

/-- The conditional adoption step of stabilize, chord_impl.c lines
181-185: when the awaited response has tag GET_PREDECESSOR_RESPONSE, its
node has a nonzero key and that key lies in the open arc
(hash, successor.key), the response node becomes the successor and is
written into successor_list[0]. -/
def stabilize_adopt (s : ChordState) (resp : MessageResponse) : ChordState :=
  if resp.type = MsgCase.GET_PREDECESSOR_RESPONSE ∧ resp.node.key ≠ 0 ∧
      element_of resp.node.key s.hash s.successor.key false = true then
    { s with successor := resp.node,
             successor_list := s.successor_list.set 0 resp.node }
  else
    s

/-- Modelled from the spec: notify is declared in chord_impl.h and called
by stabilize but its body is not under src.  Section 4.6 step 3 of the
spec says it sends NOTIFY carrying self to the (possibly new) successor. -/
def notify_send (s : ChordState) : List SentMsg :=
  [SentMsg.notifyMsg s.successor s.self]

/-- stabilize from chord_impl.c lines 164-192.  It sends a
GET_PREDECESSOR_REQUEST to the current successor, awaits the response
(parameter predResp), conditionally adopts the reported predecessor, then
calls notify and fix_successor_list in that order; succListResp is the
response fix_successor_list awaits. -/
def stabilize (s : ChordState) (predResp succListResp : MessageResponse) :
    ChordState × List SentMsg :=
  let s1 := stabilize_adopt s predResp
  let fsl := fix_successor_list s1 succListResp
  (fsl.1, SentMsg.getPredecessorRequest s.successor :: (notify_send s1 ++ fsl.2))

/-- fix_fingers from chord_impl.c lines 229-239.  The cursor fixIndex is
incremented and reset to 0 when it reaches M, then
finger_table[fixIndex] is assigned the value of
find_successor(hash + 2 ^ fixIndex) (uint64_t wrap-around on the
addition).  The parameter resp is the response the inner find_successor
call awaits; the parameter junk stands for the unspecified value the C
call yields when find_successor returns without executing a return
statement (the assignment still happens in that case). -/
def fix_fingers (s : ChordState) (resp : MessageResponse) (junk : Node) :
    ChordState :=
  let i := if M ≤ s.fixIndex + 1 then 0 else s.fixIndex + 1
  let s1 := { s with fixIndex := i }
  let r := (find_successor s1 ((s.hash + 2 ^ i) % 2 ^ 64) resp).1
  { s1 with finger_table := s1.finger_table.set i (r.getD junk) }

/-- One observable iteration of the polling loop in wait_for_response:
either select fails, or no datagram is ready, or a datagram is ready and
process_chord_msg yields a MessageResponse.  The time field is the value
time(NULL) returns at the end of that iteration. -/
inductive WaitEvent where
  | selectError
  | noData (timeAfter : Nat)
  | gotData (resp : MessageResponse) (timeAfter : Nat)
deriving DecidableEq, Repr

/-- The do-while loop of wait_for_response, chord_impl.c lines 93-112,
over a finite trace of iterations.  A select error breaks out returning
the current response; otherwise the response is overwritten when a
datagram was processed, and the loop exits (returning the current
response) as soon as the current time has reached timeoutTime or the
current response has the expected tag.  The result none means the trace
ended while the loop would still be running. -/
def wait_loop (expected : MsgCase) (timeoutTime : Nat) :
    List WaitEvent → MessageResponse → Option MessageResponse
  | [], _ => none
  | WaitEvent.selectError :: _, response => some response
  | WaitEvent.noData t :: rest, response =>
    if t < timeoutTime ∧ response.type ≠ expected then
      wait_loop expected timeoutTime rest response
    else
      some response
  | WaitEvent.gotData r t :: rest, _ =>
    if t < timeoutTime ∧ r.type ≠ expected then
      wait_loop expected timeoutTime rest r
    else
      some r

/-- wait_for_response from chord_impl.c lines 88-115: the deadline is one
second past the entry time, and the response starts out with tag
NOT_SET. -/
def wait_for_response (expected : MsgCase) (startTime : Nat)
    (events : List WaitEvent) : Option MessageResponse :=
  wait_loop expected (startTime + 1) events ⟨MsgCase.NOT_SET, nullNode, []⟩

/-- Example state: a node with hash 10 whose successor has key 20 and
whose finger table holds that successor in entry 0. -/
def sA : ChordState :=
  ⟨10, ⟨10, 0, 0⟩, nullNode, ⟨20, 0, 0⟩, [⟨20, 0, 0⟩], [⟨20, 0, 0⟩], 0⟩

/-- Example state: a node with hash 10, successor key 11 and two stale
finger entries. -/
def sB : ChordState :=
  ⟨10, ⟨10, 0, 0⟩, nullNode, ⟨11, 0, 0⟩, [⟨1, 0, 0⟩, ⟨2, 0, 0⟩], [⟨11, 0, 0⟩], 0⟩

/-- Example state: a node with hash 10, successor key 20 and a successor
list of two entries. -/
def sC : ChordState :=
  ⟨10, ⟨10, 0, 0⟩, nullNode, ⟨20, 0, 0⟩, [], [⟨20, 0, 0⟩, ⟨30, 0, 0⟩], 0⟩

/-- Example state: a lone-ring node with key 7 that is its own
successor and has an all-empty finger table. -/
def sLone : ChordState :=
  ⟨7, ⟨7, 0, 0⟩, nullNode, ⟨7, 0, 0⟩, [], [⟨7, 0, 0⟩], 0⟩

/-- Example response: the timeout value, tag NOT_SET. -/
def respNone : MessageResponse := ⟨MsgCase.NOT_SET, nullNode, []⟩

/-- Example response: a successor-list reply with two entries. -/
def respList : MessageResponse :=
  ⟨MsgCase.GET_SUCCESSOR_LIST_RESPONSE, nullNode, [⟨30, 0, 0⟩, ⟨40, 0, 0⟩]⟩

/-- Example response: a predecessor reply reporting a node with key 15. -/
def respPred : MessageResponse :=
  ⟨MsgCase.GET_PREDECESSOR_RESPONSE, ⟨15, 0, 0⟩, []⟩

/- ------------------------------------------------------------------ -/
/- Helper lemmas                                                      -/
/- ------------------------------------------------------------------ -/

/-- Both branches of fix_successor_list send exactly one
GET_SUCCESSOR_LIST_REQUEST to the current successor. -/
theorem fix_successor_list_sent (s : ChordState) (resp : MessageResponse) :
    (fix_successor_list s resp).2 = [SentMsg.getSuccessorListRequest s.successor] := by
  unfold fix_successor_list
  split <;> rfl

/-- fix_successor_list never changes the successor variable. -/
theorem fix_successor_list_keeps_successor (s : ChordState) (resp : MessageResponse) :
    (fix_successor_list s resp).1.successor = s.successor := by
  unfold fix_successor_list
  split <;> rfl

/-- If no index below n satisfies the scan condition, the descending scan
returns self. -/
theorem cpn_from_none (s : ChordState) (k : Nat) :
    ∀ n, (∀ i, i < n → goodFinger s k i = false) → cpn_from s k n = s.self := by
  intro n
  induction n with
  | zero => intro _; rfl
  | succ m ih =>
    intro h
    show (if goodFinger s k m then fingerAt s m else cpn_from s k m) = s.self
    rw [if_neg (by simp [h m (Nat.lt_succ_self m)])]
    exact ih (fun i hi => h i (Nat.lt_succ_of_lt hi))

/-- If i is the largest index below n satisfying the scan condition, the
descending scan returns the finger at i. -/
theorem cpn_from_first (s : ChordState) (k : Nat) :
    ∀ n i, i < n → goodFinger s k i = true →
      (∀ j, i < j → j < n → goodFinger s k j = false) →
      cpn_from s k n = fingerAt s i := by
  intro n
  induction n with
  | zero => intro i hi _ _; exact absurd hi (Nat.not_lt_zero i)
  | succ m ih =>
    intro i hi hg hmax
    show (if goodFinger s k m then fingerAt s m else cpn_from s k m) = fingerAt s i
    by_cases hcase : i = m
    · subst hcase; rw [if_pos hg]
    · have him : i < m := by omega
      rw [if_neg (by simp [hmax m him (Nat.lt_succ_self m)])]
      exact ih i him hg (fun j h1 h2 => hmax j h1 (Nat.lt_succ_of_lt h2))

/-- The descending scan returns self or a finger satisfying the scan
condition. -/
theorem cpn_from_self_or_good (s : ChordState) (k : Nat) :
    ∀ n, cpn_from s k n = s.self ∨
      ((cpn_from s k n).key ≠ 0 ∧
        element_of (cpn_from s k n).key s.hash k false = true) := by
  intro n
  induction n with
  | zero => exact Or.inl rfl
  | succ m ih =>
    by_cases hg : goodFinger s k m = true
    · have hval : cpn_from s k (m + 1) = fingerAt s m := by
        show (if goodFinger s k m then fingerAt s m else cpn_from s k m) = fingerAt s m
        rw [if_pos hg]
      rw [hval]
      right
      simpa [goodFinger, Bool.and_eq_true, bne_iff_ne] using hg
    · have hval : cpn_from s k (m + 1) = cpn_from s k m := by
        show (if goodFinger s k m then fingerAt s m else cpn_from s k m) = cpn_from s k m
        rw [if_neg hg]
      rw [hval]
      exact ih

/- ------------------------------------------------------------------ -/
/- Claim theorems                                                     -/
/- ------------------------------------------------------------------ -/

/-- C1 counterexample: fix_successor_list does not truncate the new list
to the configured length r, and on timeout it performs no failover.
With r = 1 the claim would require the refreshed list to equal
take 1 of successor prepended to the peer list, but the code keeps all
three entries; and on a timeout the claim would require the head to be
dropped, but the code leaves the two-entry list untouched. -/
theorem fix_successor_list_no_truncation_cex :
    (fix_successor_list sC respList).1.successor_list =
      [⟨20, 0, 0⟩, ⟨30, 0, 0⟩, ⟨40, 0, 0⟩] ∧
    (fix_successor_list sC respList).1.successor_list ≠
      List.take 1 (sC.successor :: respList.successors) ∧
    (fix_successor_list sC respNone).1.successor_list = sC.successor_list ∧
    sC.successor_list ≠ sC.successor_list.tail := by decide

/-- C1 amended: on a GET_SUCCESSOR_LIST_RESPONSE the new local list is
the current successor prepended to the entire received list, with no
truncation to r; on any other awaited outcome (timeout included) the
state is left unchanged, with no failover; in both cases exactly one
GET_SUCCESSOR_LIST_REQUEST is sent to the current successor. -/
theorem fix_successor_list_behavior (s : ChordState) (resp : MessageResponse) :
    (resp.type = MsgCase.GET_SUCCESSOR_LIST_RESPONSE →
      (fix_successor_list s resp).1 =
        { s with successor_list := s.successor :: resp.successors }) ∧
    (resp.type ≠ MsgCase.GET_SUCCESSOR_LIST_RESPONSE →
      (fix_successor_list s resp).1 = s) ∧
    (fix_successor_list s resp).2 = [SentMsg.getSuccessorListRequest s.successor] := by
  unfold fix_successor_list
  by_cases h : resp.type = MsgCase.GET_SUCCESSOR_LIST_RESPONSE
  · simp [h]
  · simp [h]

/-- C1 witness: the amended statement evaluated on the concrete inputs of
the counterexample. -/
theorem fix_successor_list_behavior_witness :
    (fix_successor_list sC respList).1 =
      { sC with successor_list := [⟨20, 0, 0⟩, ⟨30, 0, 0⟩, ⟨40, 0, 0⟩] } ∧
    (fix_successor_list sC respNone).1 = sC :=
  ⟨((fix_successor_list_behavior sC respList).1 rfl).trans (by decide),
   (fix_successor_list_behavior sC respNone).2.1 (by decide)⟩

/-- C2: for every predecessor reply, stabilize adopts the reported node
as successor (into both the successor variable and successor_list[0])
exactly when the node key is nonzero and lies in the open arc from hash
to the successor key; and the datagram trace of stabilize is the
predecessor request to the old successor, then NOTIFY to the possibly
new successor, then the successor-list request of fix_successor_list,
in that order. -/
theorem stabilize_adoption_iff (s : ChordState) (predResp slResp : MessageResponse)
    (h : predResp.type = MsgCase.GET_PREDECESSOR_RESPONSE) :
    (stabilize_adopt s predResp =
      if predResp.node.key ≠ 0 ∧
          element_of predResp.node.key s.hash s.successor.key false = true then
        { s with successor := predResp.node,
                 successor_list := s.successor_list.set 0 predResp.node }
      else s) ∧
    (stabilize s predResp slResp).2 =
      [SentMsg.getPredecessorRequest s.successor,
       SentMsg.notifyMsg (stabilize_adopt s predResp).successor
         (stabilize_adopt s predResp).self,
       SentMsg.getSuccessorListRequest (stabilize_adopt s predResp).successor] := by
  constructor
  · by_cases hc : predResp.node.key ≠ 0 ∧
        element_of predResp.node.key s.hash s.successor.key false = true
    · rw [if_pos hc]
      unfold stabilize_adopt
      rw [if_pos ⟨h, hc.1, hc.2⟩]
    · rw [if_neg hc]
      unfold stabilize_adopt
      rw [if_neg (fun hx => hc ⟨hx.2.1, hx.2.2⟩)]
  · show SentMsg.getPredecessorRequest s.successor ::
        (notify_send (stabilize_adopt s predResp) ++
          (fix_successor_list (stabilize_adopt s predResp) slResp).2) = _
    rw [fix_successor_list_sent]
    rfl

/-- C2 witness: a reply reporting key 15 from a node with hash 10 and
successor key 20 is adopted, and the three datagrams appear in order. -/
theorem stabilize_adoption_iff_witness :
    stabilize_adopt sA respPred =
      { sA with successor := ⟨15, 0, 0⟩, successor_list := [⟨15, 0, 0⟩] } ∧
    (stabilize sA respPred respNone).2 =
      [SentMsg.getPredecessorRequest ⟨20, 0, 0⟩,
       SentMsg.notifyMsg ⟨15, 0, 0⟩ ⟨10, 0, 0⟩,
       SentMsg.getSuccessorListRequest ⟨15, 0, 0⟩] :=
  ⟨((stabilize_adoption_iff sA respPred respNone rfl).1).trans (by decide),
   ((stabilize_adoption_iff sA respPred respNone rfl).2).trans (by decide)⟩

/-- C3: when the key lies in the half-open arc from hash to the
successor key with the upper end included, find_successor returns the
current successor and sends nothing. -/
theorem find_successor_local_hit (s : ChordState) (k : Nat)
    (resp : MessageResponse)
    (h : element_of k s.hash s.successor.key true = true) :
    find_successor s k resp = (some s.successor, []) := by
  unfold find_successor
  rw [if_pos h]

/-- C3 witness: key 15 lies in the arc from 10 to 20, so the node of
state sA answers with its successor locally. -/
theorem find_successor_local_hit_witness :
    element_of 15 sA.hash sA.successor.key true = true ∧
    find_successor sA 15 respNone = (some ⟨20, 0, 0⟩, []) :=
  ⟨by decide, (find_successor_local_hit sA 15 respNone (by decide)).trans (by decide)⟩

/-- C4: closest_preceding_node returns self or a finger whose key is
nonzero and lies in the open arc from hash to the key; when no index
below M satisfies the scan condition it returns self; and when i is the
largest index below M satisfying it, it returns finger i, matching the
descending scan from M-1 to 0. -/
theorem closest_preceding_node_spec (s : ChordState) (k : Nat) :
    (closest_preceding_node s k = s.self ∨
      ((closest_preceding_node s k).key ≠ 0 ∧
        element_of (closest_preceding_node s k).key s.hash k false = true)) ∧
    ((∀ i, i < M → goodFinger s k i = false) → closest_preceding_node s k = s.self) ∧
    (∀ i, i < M → goodFinger s k i = true →
      (∀ j, i < j → j < M → goodFinger s k j = false) →
      closest_preceding_node s k = fingerAt s i) :=
  ⟨cpn_from_self_or_good s k M,
   fun h => cpn_from_none s k M h,
   fun i hi hg hmax => cpn_from_first s k M i hi hg hmax⟩

/-- C4 witness: in state sA, index 0 is the only matching finger for key
30, and the scan returns it. -/
theorem closest_preceding_node_spec_witness :
    closest_preceding_node sA 30 = ⟨20, 0, 0⟩ := by
  have hrest : ∀ j, j < M → (0 < j → goodFinger sA 30 j = false) := by decide
  have h := (closest_preceding_node_spec sA 30).2.2 0 (by decide) (by decide)
    (fun j h1 h2 => hrest j h2 h1)
  exact h.trans (by decide)

/-- C5 counterexample: in the lone ring sLone with key 7, step 1 does
not apply and the closest preceding node is self, yet find_successor
sends the request to itself instead of returning self without
forwarding (with no matching response it produces no result at all). -/
theorem find_successor_self_forward_cex :
    element_of 7 sLone.hash sLone.successor.key true = false ∧
    closest_preceding_node sLone 7 = sLone.self ∧
    (find_successor sLone 7 respNone).2 =
      [SentMsg.startFindSuccessorRequest sLone.self 7] ∧
    (find_successor sLone 7 respNone).1 ≠ some sLone.self := by decide

/-- C5 amended: when step 1 does not apply, find_successor always
forwards one START_FIND_SUCCESSOR_REQUEST to the closest preceding
node, even when that node is self: there is no degenerate-ring
short-circuit returning self without forwarding. -/
theorem find_successor_always_forwards (s : ChordState) (k : Nat)
    (resp : MessageResponse)
    (h : element_of k s.hash s.successor.key true = false) :
    (find_successor s k resp).2 =
      [SentMsg.startFindSuccessorRequest (closest_preceding_node s k) k] := by
  unfold find_successor
  rw [if_neg (by simp [h])]
  split <;> rfl

/-- C5 witness: the amended statement at state sA with key 25 outside
the arc from 10 to 20. -/
theorem find_successor_always_forwards_witness :
    element_of 25 sA.hash sA.successor.key true = false ∧
    (find_successor sA 25 respNone).2 =
      [SentMsg.startFindSuccessorRequest (closest_preceding_node sA 25) 25] :=
  ⟨by decide, find_successor_always_forwards sA 25 respNone (by decide)⟩

/-- C6: when the inner lookup of fix_fingers gets no matching response,
find_successor produces no defined result, yet fix_fingers still
overwrites the finger entry at the new cursor with that unspecified
value (modelled by the junk parameter): the prior entry with key 2 is
not left intact. -/
theorem fix_fingers_overwrites_on_failed_lookup :
    (find_successor { sB with fixIndex := 1 } 12 respNone).1 = none ∧
    (fix_fingers sB respNone ⟨777, 0, 0⟩).finger_table =
      [⟨1, 0, 0⟩, ⟨777, 0, 0⟩] ∧
    sB.finger_table = [⟨1, 0, 0⟩, ⟨2, 0, 0⟩] := by decide

/-- C7: a NOTIFY-tagged response processed during the wait terminates
wait_for_response once the deadline passes, and that wrong-tagged
response is the returned value, contradicting the requirement that only
a matching tag or the NOT_SET timeout value is ever returned. -/
theorem wait_for_response_wrong_tag_on_timeout :
    wait_for_response MsgCase.GET_PREDECESSOR_RESPONSE 0
      [WaitEvent.gotData ⟨MsgCase.NOTIFY, nullNode, []⟩ 1] =
      some ⟨MsgCase.NOTIFY, nullNode, []⟩ ∧
    MsgCase.NOTIFY ≠ MsgCase.GET_PREDECESSOR_RESPONSE ∧
    MsgCase.NOTIFY ≠ MsgCase.NOT_SET := by decide

/-- C8: each fix_fingers call advances the cursor by one modulo M, keeps
it inside [0, M), and replaces exactly the finger entry at the new
cursor with the value of find_successor at hash + 2 ^ cursor taken
modulo 2 ^ 64. -/
theorem fix_fingers_round_robin (s : ChordState) (resp : MessageResponse)
    (junk : Node) (h : s.fixIndex < M) :
    (fix_fingers s resp junk).fixIndex = (s.fixIndex + 1) % M ∧
    (fix_fingers s resp junk).finger_table =
      s.finger_table.set ((s.fixIndex + 1) % M)
        ((find_successor { s with fixIndex := (s.fixIndex + 1) % M }
            ((s.hash + 2 ^ ((s.fixIndex + 1) % M)) % 2 ^ 64) resp).1.getD junk) ∧
    (fix_fingers s resp junk).fixIndex < M := by
  have hi : (if M ≤ s.fixIndex + 1 then 0 else s.fixIndex + 1) =
      (s.fixIndex + 1) % M := by
    unfold M at h ⊢
    by_cases hc : 64 ≤ s.fixIndex + 1
    · rw [if_pos hc]
      have he : s.fixIndex + 1 = 64 := by omega
      rw [he, Nat.mod_self]
    · rw [if_neg hc]
      exact (Nat.mod_eq_of_lt (by omega)).symm
  unfold fix_fingers
  rw [hi]
  refine ⟨rfl, rfl, ?_⟩
  show (s.fixIndex + 1) % M < M
  exact Nat.mod_lt _ (by decide)

/-- C8 witness: with the cursor at M - 1 = 63 the next call wraps it
back to 0. -/
theorem fix_fingers_round_robin_witness :
    (fix_fingers { sB with fixIndex := 63 } respNone ⟨9, 9, 9⟩).fixIndex = 0 :=
  ((fix_fingers_round_robin { sB with fixIndex := 63 } respNone ⟨9, 9, 9⟩
      (by decide)).1).trans (by decide)

/-- C9: a predecessor reply whose node key is 0 is treated as empty: the
adoption step leaves the whole state unchanged, so the successor after
stabilize is still the old one. -/
theorem stabilize_ignores_zero_key (s : ChordState)
    (predResp slResp : MessageResponse) (h : predResp.node.key = 0) :
    stabilize_adopt s predResp = s ∧
    (stabilize s predResp slResp).1.successor = s.successor := by
  have h1 : stabilize_adopt s predResp = s := by
    unfold stabilize_adopt
    rw [if_neg (fun hc => hc.2.1 h)]
  refine ⟨h1, ?_⟩
  show (fix_successor_list (stabilize_adopt s predResp) slResp).1.successor =
    s.successor
  rw [h1, fix_successor_list_keeps_successor]

/-- C9 witness: a reply carrying a node with key 0 does not change state
sA. -/
theorem stabilize_ignores_zero_key_witness :
    stabilize_adopt sA ⟨MsgCase.GET_PREDECESSOR_RESPONSE, ⟨0, 5, 5⟩, []⟩ = sA :=
  (stabilize_ignores_zero_key sA ⟨MsgCase.GET_PREDECESSOR_RESPONSE, ⟨0, 5, 5⟩, []⟩
    respNone rfl).1

/-- C10: there is an execution of find_successor, with the key outside
the arc of step 1, in which the request is forwarded and the awaited
response does not have tag START_FIND_SUCCESSOR_RESPONSE; on that path
no return statement of the C function executes, modelled here as the
result none. -/
theorem find_successor_no_response_undefined :
    element_of 25 sA.hash sA.successor.key true = false ∧
    respNone.type ≠ MsgCase.START_FIND_SUCCESSOR_RESPONSE ∧
    (find_successor sA 25 respNone).2 ≠ [] ∧
    (find_successor sA 25 respNone).1 = none := by decide

end Chord
